import Mathlib

/-!
Verification of the OneBot V11 adapter (`nonebot/adapters/onebot/v11/adapter.py`).

The development shallowly embeds the adapter's pure logic:

* `Json` models the values produced by `json.loads`;
* `sha1` / `hmacSha1` / `hexdigest` implement SHA-1 and HMAC-SHA1 over byte
  lists (naturals below 256), mirroring Python's `hmac.new(key, body, "sha1")`;
* `_check_signature`, `_check_access_token`, `_handle_http`, `_handle_ws`,
  `fwdLoop` (the receive loop of `_forward_ws`) and `json_to_event` are
  translated from the adapter source; the stateful handlers are embedded as
  pure functions from their inputs (configuration, headers, the session map,
  and the list of frames received on the connection) to a trace of observable
  actions plus the updated session map.

Definitions whose doc comment starts with `Modelled from the spec:` stand for
repository code that lives outside the adapter module (the event classes, the
result store and the bearer-token helper) and are written from the
specification's description of those collaborators.
-/

namespace OneBotV11

/-- A JSON value as produced by `json.loads`: `null`, booleans, (integer)
numbers, strings, arrays, and objects (ordered key/value pairs with the
first binding of a key the visible one, matching `dict` lookup). -/
inductive Json where
  | null : Json
  | bool (b : Bool) : Json
  | num (n : Int) : Json
  | str (s : String) : Json
  | arr (elems : List Json) : Json
  | obj (fields : List (String × Json)) : Json

/-- `fields.get(k)` on a decoded JSON object: the value of the first binding
of key `k`, if any. -/
def jGet (fields : List (String × Json)) (k : String) : Option Json :=
  (fields.find? (fun p => p.1 == k)).map (fun p => p.2)

/-- Discriminator for `isinstance(json_data, dict)`. -/
def Json.isObj : Json → Bool
  | .obj _ => true
  | _ => false

/-- Python truthiness of a decoded JSON value (`if v:`). -/
def truthy : Json → Bool
  | .null => false
  | .bool b => b
  | .num n => n != 0
  | .str s => !(s == "")
  | .arr l => !l.isEmpty
  | .obj l => !l.isEmpty

/-- Python `str()` of a decoded JSON value, as interpolated by an f-string.
The scalar cases are exact (`str(None) = "None"`, `str(True) = "True"`,
decimal rendering of ints, the string itself for strings); the container
cases, which the adapter never feeds into a key in practice, are
approximated by a fixed placeholder. -/
def pyStr : Json → String
  | .null => "None"
  | .bool b => cond b "True" "False"
  | .num n => toString n
  | .str s => s
  | .arr _ => "[...]"
  | .obj _ => "\x7b...\x7d"

/-! ## Bytes, SHA-1 and HMAC-SHA1

Python's `hmac.new(secret.encode("utf-8"), body, "sha1").hexdigest()` is
reproduced over byte lists (each byte a natural below 256). -/

/-- UTF-8 encoding of a single code point. -/
def utf8EncodeChar (c : Nat) : List Nat :=
  if c < 128 then [c]
  else if c < 2048 then [192 + c / 64, 128 + c % 64]
  else if c < 65536 then [224 + c / 4096, 128 + (c / 64) % 64, 128 + c % 64]
  else [240 + c / 262144, 128 + (c / 4096) % 64, 128 + (c / 64) % 64, 128 + c % 64]

/-- `s.encode("utf-8")` as a list of bytes. -/
def strBytes (s : String) : List Nat :=
  (s.data.map (fun c => utf8EncodeChar c.toNat)).flatten

/-- Left rotation of a 32-bit word (represented as a natural below `2 ^ 32`). -/
def rotl32 (n x : Nat) : Nat :=
  ((x <<< n) % 4294967296) ||| (x >>> (32 - n))

/-- Big-endian byte rendering of `n` on `k` bytes. -/
def beBytes (k n : Nat) : List Nat :=
  match k with
  | 0 => []
  | k + 1 => beBytes k (n / 256) ++ [n % 256]

/-- Assemble one 32-bit word from four bytes, big-endian. -/
def bytesToWord (a b c d : Nat) : Nat :=
  ((a * 256 + b) * 256 + c) * 256 + d

/-- The sixteen 32-bit words of a 64-byte block. -/
def blockWords : List Nat → List Nat
  | a :: b :: c :: d :: rest => bytesToWord a b c d :: blockWords rest
  | _ => []

/-- Extend the message schedule by `k` further words
(`w[i] = rotl1 (w[i-3] xor w[i-8] xor w[i-14] xor w[i-16])`). -/
def extendWords (k : Nat) (ws : List Nat) : List Nat :=
  match k with
  | 0 => ws
  | k + 1 =>
    let n := ws.length
    extendWords k (ws ++ [rotl32 1 (Nat.xor
      (Nat.xor (ws.getD (n - 3) 0) (ws.getD (n - 8) 0))
      (Nat.xor (ws.getD (n - 14) 0) (ws.getD (n - 16) 0)))])

/-- The SHA-1 round function. -/
def sha1F (i b c d : Nat) : Nat :=
  if i < 20 then Nat.lor (Nat.land b c) (Nat.land (Nat.xor b 4294967295) d)
  else if i < 40 then Nat.xor (Nat.xor b c) d
  else if i < 60 then Nat.lor (Nat.lor (Nat.land b c) (Nat.land b d)) (Nat.land c d)
  else Nat.xor (Nat.xor b c) d

/-- The SHA-1 round constants. -/
def sha1K (i : Nat) : Nat :=
  if i < 20 then 1518500249
  else if i < 40 then 1859775393
  else if i < 60 then 2400959708
  else 3395469782

/-- One SHA-1 round on the five-word state. -/
def sha1Step (w : List Nat) (st : Nat × Nat × Nat × Nat × Nat) (i : Nat) :
    Nat × Nat × Nat × Nat × Nat :=
  match st with
  | (a, b, c, d, e) =>
    ((rotl32 5 a + sha1F i b c d + e + sha1K i + w.getD i 0) % 4294967296,
     a, rotl32 30 b, c, d)

/-- SHA-1 compression of one 64-byte block into the running state. -/
def sha1Compress (h : Nat × Nat × Nat × Nat × Nat) (block : List Nat) :
    Nat × Nat × Nat × Nat × Nat :=
  let w := extendWords 64 (blockWords block)
  match h, (List.range 80).foldl (sha1Step w) h with
  | (h0, h1, h2, h3, h4), (a, b, c, d, e) =>
    ((h0 + a) % 4294967296, (h1 + b) % 4294967296, (h2 + c) % 4294967296,
     (h3 + d) % 4294967296, (h4 + e) % 4294967296)

/-- SHA-1 padding: `0x80`, zeros up to 56 mod 64, then the 64-bit bit length. -/
def sha1Pad (msg : List Nat) : List Nat :=
  msg ++ [128] ++ List.replicate ((119 - msg.length % 64) % 64) 0
      ++ beBytes 8 (msg.length * 8)

/-- Split a byte list into 64-byte chunks (the fuel, always instantiated with
the list length, keeps the recursion structural). -/
def chunkGo : Nat → List Nat → List (List Nat)
  | 0, _ => []
  | _, [] => []
  | fuel + 1, l => l.take 64 :: chunkGo fuel (l.drop 64)

/-- Split a byte list into 64-byte chunks. -/
def chunk64 (l : List Nat) : List (List Nat) :=
  chunkGo l.length l

/-- The SHA-1 digest (20 bytes) of a byte list. -/
def sha1 (msg : List Nat) : List Nat :=
  match (chunk64 (sha1Pad msg)).foldl sha1Compress
      (1732584193, 4023233417, 2562383102, 271733878, 3285377520) with
  | (h0, h1, h2, h3, h4) =>
    beBytes 4 h0 ++ beBytes 4 h1 ++ beBytes 4 h2 ++ beBytes 4 h3 ++ beBytes 4 h4

/-- HMAC-SHA1 (RFC 2104) of `msg` under `key`, over byte lists. -/
def hmacSha1 (key msg : List Nat) : List Nat :=
  let k0 := if key.length > 64 then sha1 key else key
  let kPad := k0 ++ List.replicate (64 - k0.length) 0
  sha1 (kPad.map (Nat.xor 92) ++ sha1 (kPad.map (Nat.xor 54) ++ msg))

/-- Lowercase hex character of a value below 16. -/
def hexChar (n : Nat) : Char :=
  if n < 10 then Char.ofNat (48 + n) else Char.ofNat (87 + n)

/-- Lowercase hex rendering of one byte. -/
def hexByte (b : Nat) : String :=
  String.mk [hexChar (b / 16), hexChar (b % 16)]

/-- Python's `.hexdigest()`: lowercase hex of a byte list. -/
def hexdigest (bs : List Nat) : String :=
  String.join (bs.map hexByte)

/-- The body of an inbound request: `request.content` is either raw bytes or
an `str` (the adapter encodes the latter as UTF-8 before signing). -/
inductive ReqContent where
  | bytes (data : List Nat) : ReqContent
  | str (text : String) : ReqContent
deriving DecidableEq

/-- The raw body bytes the adapter signs
(`request.content if isinstance(request.content, bytes) else
request.content.encode("utf-8")`). -/
def contentBytes : ReqContent → List Nat
  | .bytes d => d
  | .str s => strBytes s

/-- An inbound HTTP request (or the handshake request of a WebSocket):
its headers, keyed lowercase, and its optional body. -/
structure Request where
  headers : List (String × String)
  content : Option ReqContent

/-- `request.headers.get(k)`. -/
def hGet (headers : List (String × String)) (k : String) : Option String :=
  (headers.find? (fun p => p.1 == k)).map (fun p => p.2)

/-- An HTTP response: status code and optional plaintext body. -/
structure Response where
  status : Nat
  content : Option String
deriving DecidableEq

/-- The adapter configuration: `secret`, `access_token`, `ws_urls`. -/
structure Config where
  secret : Option String
  access_token : Option String
  ws_urls : List String

/-- Python truthiness of an optional string (`if not self_id:` treats both an
absent header and an empty one as missing). -/
def optStrTruthy : Option String → Bool
  | none => false
  | some s => !(s == "")

/-! ## The signature check (`_check_signature`, adapter.py lines 147-167) -/

/-- `Adapter._check_signature`: with a (truthy) `secret` configured, a missing
or empty `X-Signature` header is rejected with 401, a missing body with 400,
and a header differing from `"sha1=" + hmac.new(secret, body, "sha1")
.hexdigest()` with 403; otherwise the check passes (`None`). -/
def _check_signature (cfg : Config) (req : Request) : Option Response :=
  let x_signature := hGet req.headers "x-signature"
  match cfg.secret with
  | none => none
  | some secret =>
    if secret = "" then none
    else
      match x_signature with
      | none => some (Response.mk 401 (some "Missing Signature"))
      | some sigh =>
        if sigh = "" then some (Response.mk 401 (some "Missing Signature"))
        else
          match req.content with
          | none => some (Response.mk 400 (some "Missing Content"))
          | some c =>
            let sig := hexdigest (hmacSha1 (strBytes secret) (contentBytes c))
            if sigh ≠ "sha1=" ++ sig then
              some (Response.mk 403 (some "Signature is invalid"))
            else none


/-- Modelled from the spec: `get_auth_bearer` extracts the bearer token from
the value of the `Authorization` header (`Bearer <token>`); an absent header
or a value without the bearer scheme yields no token. -/
def get_auth_bearer : Option String → Option String
  | none => none
  | some v => if v.startsWith "Bearer " then some (v.drop 7) else none

/-- `Adapter._check_access_token` (adapter.py lines 169-186): with a (truthy)
`access_token` configured, an extracted token other than the configured one is
rejected with 403, the message distinguishing a missing token from an invalid
one; otherwise the check passes (`None`). -/
def _check_access_token (cfg : Config) (req : Request) : Option Response :=
  let token := get_auth_bearer (hGet req.headers "authorization")
  match cfg.access_token with
  | none => none
  | some acc =>
    if acc = "" then none
    else if token = some acc then none
    else some (Response.mk 403 (some (if optStrTruthy token then
      "Authorization Header is invalid" else "Missing Authorization Header")))

/-! ## Events and the decode cascade (`json_to_event`, adapter.py 259-291) -/

/-- Modelled from the spec: the decoded typed events. The concrete event
classes live in the repository's `event` module (not under `src/`); per the
specification every event carries `self_id`, and the lifecycle meta-event
(`LifecycleMetaEvent`) additionally carries its `sub_type`. Any other
successfully parsed event is represented generically by its payload. -/
inductive Evt where
  | lifecycle (self_id : Int) (sub_type : String) : Evt
  | generic (self_id : Int) (payload : Json) : Evt

/-- The identity an event carries (`event.self_id`). -/
def Evt.selfId : Evt → Int
  | .lifecycle n _ => n
  | .generic n _ => n

/-- `isinstance(event, LifecycleMetaEvent) and event.sub_type == "connect"`. -/
def Evt.isConnect : Evt → Bool
  | .lifecycle _ st => st == "connect"
  | .generic _ _ => false

/-- A candidate event parser — `model.parse_obj`, returning `none` where the
pydantic model would raise a validation error. -/
abbrev ParseFn : Type := Json → Option Evt

/-- Modelled from the spec: `Event.parse_obj`, the universal fallback parse
that accepts any well-formed Event envelope — a JSON object whose `post_type`
is a string and which carries an integer `self_id`. -/
def Event.parse_obj (j : Json) : Option Evt :=
  match j with
  | .obj fields =>
    match jGet fields "post_type", jGet fields "self_id" with
    | some (.str _), some (.num n) => some (.generic n j)
    | _, _ => none
  | _ => none

/-- Modelled from the spec: the parser of the concrete lifecycle meta-event
variant (`post_type = "meta_event"`, `meta_event_type = "lifecycle"`), which
carries `sub_type` and `self_id`. -/
def lifecycleParse : ParseFn := fun j =>
  match j with
  | .obj fields =>
    match jGet fields "post_type", jGet fields "meta_event_type",
          jGet fields "sub_type", jGet fields "self_id" with
    | some (.str "meta_event"), some (.str "lifecycle"),
      some (.str st), some (.num n) => some (.lifecycle n st)
    | _, _, _, _ => none
  | _ => none

/-- Try each candidate parser in order; the first success wins (the
`for model in models: try ... break / except: log DEBUG` loop). -/
def firstParse : List ParseFn → Json → Option Evt
  | [], _ => none
  | p :: ps, j =>
    match p j with
    | some e => some e
    | none => firstParse ps j

/-- The taxonomy key as `json_to_event` builds it:
`post_type`, then `f".{detail_type}" if detail_type else ""` for the
`{post_type}_type` field, then likewise for `sub_type` — a segment is kept
only when the field value is truthy. -/
def taxonomyKey (post_type : String) (fields : List (String × Json)) : String :=
  let detail_type :=
    match jGet fields (post_type ++ "_type") with
    | some v => if truthy v then "." ++ pyStr v else ""
    | none => ""
  let sub_type :=
    match jGet fields "sub_type" with
    | some v => if truthy v then "." ++ pyStr v else ""
    | none => ""
  post_type ++ detail_type ++ sub_type

/-- The taxonomy key as the specification sentence literally reads: each
optional segment is included exactly when its field is present and non-null.
Written from the spec's words, for comparison with `taxonomyKey`. -/
def specTaxonomyKey (post_type : String) (fields : List (String × Json)) : String :=
  let detail_type :=
    match jGet fields (post_type ++ "_type") with
    | some Json.null => ""
    | some v => "." ++ pyStr v
    | none => ""
  let sub_type :=
    match jGet fields "sub_type" with
    | some Json.null => ""
    | some v => "." ++ pyStr v
    | none => ""
  post_type ++ detail_type ++ sub_type

/-- An absent-or-falsy optional field value (`if v:` fails on it). -/
def optFalsy : Option Json → Bool
  | none => true
  | some v => !truthy v

/-- The observable outcome of one `json_to_event` call: the returned event,
the payload forwarded to `ResultStore.add_result`, and the raw payload logged
at error level when even the fallback parse fails. -/
structure DecodeOut where
  event : Option Evt
  forwarded : Option Json
  errorLogged : Option Json

/-- `Adapter.json_to_event` (adapter.py lines 259-291): non-objects produce
nothing; objects without `post_type` are handed unchanged to
`ResultStore.add_result`; otherwise the taxonomy key is built and the
registered candidate parsers (`get_event_model`, passed in as `reg`) are tried
in order, falling back to `Event.parse_obj`; a failing fallback — or a
non-string `post_type`, on which `post_type + detail_type` raises `TypeError`
— lands in the outer `except`, which logs the raw payload at error level and
yields nothing. `decodeObj` is the object case of `json_to_event`. -/
def decodeObj (reg : String → List ParseFn) (fields : List (String × Json)) :
    DecodeOut :=
  match jGet fields "post_type" with
  | none => DecodeOut.mk none (some (Json.obj fields)) none
  | some (.str s) =>
    match firstParse (reg (taxonomyKey s fields)) (Json.obj fields) with
    | some e => DecodeOut.mk (some e) none none
    | none =>
      match Event.parse_obj (Json.obj fields) with
      | some e => DecodeOut.mk (some e) none none
      | none => DecodeOut.mk none none (some (Json.obj fields))
  | some _ => DecodeOut.mk none none (some (Json.obj fields))

/-- `Adapter.json_to_event`, entry point: non-objects produce nothing, objects
are decoded by `decodeObj`. -/
def json_to_event (reg : String → List ParseFn) (j : Json) : DecodeOut :=
  match j with
  | .obj fields => decodeObj reg fields
  | _ => DecodeOut.mk none none none

/-! ## Connection handlers as action traces -/

/-- One inbound frame on a WebSocket connection, classified by what the
`data = await websocket.receive(); json_data = json.loads(data)` pair does
with it: a successfully parsed JSON value, a frame on which `json.loads`
raises, or a failure of `receive` itself. -/
inductive Frame where
  | text (j : Json) : Frame
  | badJson : Frame
  | recvRaise : Frame

/-- Discriminator: the frame is received and parses as JSON. -/
def Frame.isText : Frame → Bool
  | .text _ => true
  | _ => false

/-- An observable action of a connection handler, in program order. -/
inductive Act where
  | warn (msg : String) : Act
  | closeWith (code : Nat) (reason : String) : Act
  | accept : Act
  | botConnect (id : String) : Act
  | dispatch (e : Evt) : Act
  | forward (j : Json) : Act
  | decodeError (j : Json) : Act
  | logWsError : Act
  | closeAttempt (raised : Bool) : Act
  | botDisconnect (id : String) : Act

/-- Discriminator for dispatch actions. -/
def Act.isDispatch : Act → Bool
  | .dispatch _ => true
  | _ => false

/-- Discriminator for session registrations (`bot_connect`). -/
def Act.isBotConnect : Act → Bool
  | .botConnect _ => true
  | _ => false

/-- Discriminator for session unregistrations (`bot_disconnect`). -/
def Act.isBotDisconnect : Act → Bool
  | .botDisconnect _ => true
  | _ => false

/-- Discriminator for the best-effort teardown close. -/
def Act.isCloseAttempt : Act → Bool
  | .closeAttempt _ => true
  | _ => false

/-- The side-effect actions of one `json_to_event` call, in program order. -/
def decodeActs (d : DecodeOut) : List Act :=
  (match d.forwarded with
   | some j => [Act.forward j]
   | none => []) ++
  (match d.errorLogged with
   | some j => [Act.decodeError j]
   | none => [])

/-- The events dispatched in a trace, in order. -/
def dispatches (acts : List Act) : List Evt :=
  acts.filterMap (fun a => match a with | .dispatch e => some e | _ => none)

/-- The identities registered in a trace, in order. -/
def connects (acts : List Act) : List String :=
  acts.filterMap (fun a => match a with | .botConnect i => some i | _ => none)

/-- The receive loop of `_handle_ws` (adapter.py lines 126-139) over the
frames of the connection: each parsed frame is decoded and any event
dispatched; `json.loads` or `receive` raising escapes to the handler's
`except`, which logs the error (mentioning the bot, not the payload) — the
loop is over. -/
def wsLoopActs (reg : String → List ParseFn) : List Frame → List Act
  | [] => []
  | .badJson :: _ => [Act.logWsError]
  | .recvRaise :: _ => [Act.logWsError]
  | .text j :: fs =>
    decodeActs (json_to_event reg j) ++
    (match (json_to_event reg j).event with
     | some e => [Act.dispatch e]
     | none => []) ++
    wsLoopActs reg fs

/-- The outcome of one `_handle_ws` call: its action trace, whether the
handshake was accepted, the registered identity, and the session map as it
stands right after the handshake completes. -/
structure WsOut where
  acts : List Act
  accepted : Bool
  sessionId : Option String
  bots : List String

/-- `Adapter._handle_ws` (adapter.py lines 102-145): the handshake rejects a
missing/empty `X-Self-ID` and a duplicate identity and a failed token check,
each by closing with 1008 and touching nothing; otherwise it accepts, creates
and registers the session, runs the receive loop, and — in `finally` — closes
the socket best-effort (an exception from `close`, flagged by `closeRaises`,
is swallowed) and unregisters the session. -/
def _handle_ws (reg : String → List ParseFn) (cfg : Config) (bots : List String)
    (hdrs : List (String × String)) (frames : List Frame) (closeRaises : Bool) :
    WsOut :=
  match hGet hdrs "x-self-id" with
  | none => WsOut.mk
      [Act.warn "Missing X-Self-ID Header", Act.closeWith 1008 "Missing X-Self-ID Header"]
      false none bots
  | some sid =>
    if sid = "" then WsOut.mk
      [Act.warn "Missing X-Self-ID Header", Act.closeWith 1008 "Missing X-Self-ID Header"]
      false none bots
    else if bots.contains sid then WsOut.mk
      [Act.warn ("There is already a bot " ++ sid ++ ", ignored"),
       Act.closeWith 1008 "Duplicate X-Self-ID"]
      false none bots
    else
      match _check_access_token cfg (Request.mk hdrs none) with
      | some r => WsOut.mk [Act.closeWith 1008 (r.content.getD "")] false none bots
      | none => WsOut.mk
          ([Act.accept, Act.botConnect sid] ++ wsLoopActs reg frames ++
            [Act.closeAttempt closeRaises, Act.botDisconnect sid])
          true (some sid) (sid :: bots)

/-- The outcome of one `_handle_http` call: the response (`none` when the
uncaught `json.loads` failure escapes the handler), the identity registered
for a fresh session, the dispatched event, and the decode side effects. -/
structure HttpOut where
  resp : Option Response
  connected : Option String
  dispatched : Option Evt
  forwarded : Option Json
  errorLogged : Option Json

/-- `Adapter._handle_http` (adapter.py lines 71-100): identity, signature and
token checks in that order, each short-circuiting; then, when a body is
present, it is JSON-parsed (`loads`, raising on `none`) and decoded, an event
resolves or lazily creates the session keyed by the identity header, and the
event is dispatched; the response is 204 whenever the checks pass and nothing
raises. -/
def _handle_http (reg : String → List ParseFn) (loads : ReqContent → Option Json)
    (cfg : Config) (bots : List String) (req : Request) : HttpOut :=
  match hGet req.headers "x-self-id" with
  | none => HttpOut.mk (some (Response.mk 400 (some "Missing X-Self-ID Header")))
      none none none none
  | some sid =>
    if sid = "" then HttpOut.mk (some (Response.mk 400 (some "Missing X-Self-ID Header")))
      none none none none
    else
      match _check_signature cfg req with
      | some r => HttpOut.mk (some r) none none none none
      | none =>
        match _check_access_token cfg req with
        | some r => HttpOut.mk (some r) none none none none
        | none =>
          match req.content with
          | none => HttpOut.mk (some (Response.mk 204 none)) none none none none
          | some data =>
            match loads data with
            | none => HttpOut.mk none none none none none
            | some jd =>
              match (json_to_event reg jd).event with
              | none => HttpOut.mk (some (Response.mk 204 none)) none none
                  (json_to_event reg jd).forwarded (json_to_event reg jd).errorLogged
              | some e =>
                if bots.contains sid then
                  HttpOut.mk (some (Response.mk 204 none)) none (some e)
                    (json_to_event reg jd).forwarded (json_to_event reg jd).errorLogged
                else
                  HttpOut.mk (some (Response.mk 204 none)) (some sid) (some e)
                    (json_to_event reg jd).forwarded (json_to_event reg jd).errorLogged

/-- The receive loop of one established forward connection
(`_forward_ws`, adapter.py lines 222-251), carrying the `bot` variable:
decoded events are dropped until, with no bot bound, a lifecycle `connect`
event arrives — then the session is registered under `str(self_id)` and the
event dispatched; with a bot bound every decoded event is dispatched; any
exception in an iteration closes the socket best-effort, logs, and breaks. -/
def fwdLoop (reg : String → List ParseFn) (closeRaises : Bool) (bot : Option String) :
    List Frame → List Act × Option String
  | [] => ([], bot)
  | .badJson :: _ => ([Act.closeAttempt closeRaises, Act.logWsError], bot)
  | .recvRaise :: _ => ([Act.closeAttempt closeRaises, Act.logWsError], bot)
  | .text j :: fs =>
    match (json_to_event reg j).event with
    | none =>
      (decodeActs (json_to_event reg j) ++ (fwdLoop reg closeRaises bot fs).1,
       (fwdLoop reg closeRaises bot fs).2)
    | some e =>
      match bot with
      | some i =>
        (decodeActs (json_to_event reg j) ++ Act.dispatch e ::
          (fwdLoop reg closeRaises (some i) fs).1,
         (fwdLoop reg closeRaises (some i) fs).2)
      | none =>
        if e.isConnect then
          (decodeActs (json_to_event reg j) ++
            Act.botConnect (toString e.selfId) :: Act.dispatch e ::
            (fwdLoop reg closeRaises (some (toString e.selfId)) fs).1,
           (fwdLoop reg closeRaises (some (toString e.selfId)) fs).2)
        else
          (decodeActs (json_to_event reg j) ++ (fwdLoop reg closeRaises none fs).1,
           (fwdLoop reg closeRaises none fs).2)

/-- The event a frame decodes to, if any. -/
def decodedEvt (reg : String → List ParseFn) : Frame → Option Evt
  | .text j => (json_to_event reg j).event
  | _ => none

/-- Whether an optional decode outcome is a lifecycle `connect` event. -/
def connOpt : Option Evt → Bool
  | some e => e.isConnect
  | none => false

/-- A sample registry: only the lifecycle variant is registered, under its
fully specific taxonomy key. -/
def sampleReg : String → List ParseFn :=
  fun k => if k == "meta_event.lifecycle.connect" then [lifecycleParse] else []

/-- A sample lifecycle `connect` payload carrying `self_id = 42`. -/
def sampleConnect : Json :=
  Json.obj [("post_type", Json.str "meta_event"), ("meta_event_type", Json.str "lifecycle"),
            ("sub_type", Json.str "connect"), ("self_id", Json.num 42)]

/-- A sample ordinary message payload carrying `self_id = 42`. -/
def sampleMessage : Json :=
  Json.obj [("post_type", Json.str "message"), ("self_id", Json.num 42)]

/-! ## Theorems -/

set_option maxRecDepth 8192 in
/-- SHA-1 of `"abc"` agrees with the FIPS 180 test vector, a sanity check of
the embedding of the hash. -/
theorem sha1_abc :
    hexdigest (sha1 [97, 98, 99]) = "a9993e364706816aba3e25717850c26c9cd0d89d" := by
  decide

set_option maxRecDepth 16384 in
/-- HMAC-SHA1 with key `"Jefe"` over `"what do ya want for nothing?"` agrees
with the RFC 2202 test vector, a sanity check of the embedding of the MAC. -/
theorem hmacSha1_jefe :
    hexdigest (hmacSha1 (strBytes "Jefe") (strBytes "what do ya want for nothing?"))
      = "effcdf6ae5eb2fa2d27416d5f184df9c259a7c79" := by
  decide

/-- A string with prefix `"sha1="` is never empty. -/
theorem sha1_prefix_ne_empty (t : String) : "sha1=" ++ t ≠ "" := by
  intro h
  have hlen := congrArg String.length h
  rw [String.length_append] at hlen
  have h5 : ("sha1=" : String).length = 5 := rfl
  have h0 : ("" : String).length = 0 := rfl
  omega

/-- C1: with a configured (non-empty) secret `S` and a request carrying a body
`B`, the signature step accepts (returns `none`) iff the `X-Signature` header
is exactly `"sha1="` followed by the lowercase hex HMAC-SHA1 of the raw body
bytes under key `S`; any other header value, and an absent header, are
rejected. -/
theorem check_signature_accepts_iff (cfg : Config) (req : Request)
    (S : String) (c : ReqContent)
    (hS : cfg.secret = some S) (hne : S ≠ "") (hc : req.content = some c) :
    _check_signature cfg req = none ↔
      hGet req.headers "x-signature" =
        some ("sha1=" ++ hexdigest (hmacSha1 (strBytes S) (contentBytes c))) := by
  unfold _check_signature
  rw [hS, hc]
  simp only [if_neg hne]
  cases hx : hGet req.headers "x-signature" with
  | none => simp
  | some sigh =>
    by_cases hsig : sigh = ""
    · subst hsig
      simp only [if_pos rfl]
      constructor
      · intro h; exact absurd h (by simp)
      · intro h
        exact absurd (Option.some.inj h).symm (sha1_prefix_ne_empty _)
    · simp only [if_neg hsig]
      by_cases heq :
          sigh = "sha1=" ++ hexdigest (hmacSha1 (strBytes S) (contentBytes c))
      · simp [heq]
      · simp [heq, if_pos, heq]

/-- Witness for C1 at a concrete secret, body and matching header. -/
theorem check_signature_accepts_iff_witness :
    _check_signature (Config.mk (some "sec") none [])
        (Request.mk
          [("x-signature",
            "sha1=" ++ hexdigest (hmacSha1 (strBytes "sec") (contentBytes (ReqContent.bytes [1, 2]))))]
          (some (ReqContent.bytes [1, 2]))) = none ↔
      hGet [("x-signature",
            "sha1=" ++ hexdigest (hmacSha1 (strBytes "sec") (contentBytes (ReqContent.bytes [1, 2]))))]
          "x-signature" =
        some ("sha1=" ++ hexdigest (hmacSha1 (strBytes "sec") (contentBytes (ReqContent.bytes [1, 2])))) :=
  check_signature_accepts_iff _ _ "sec" (ReqContent.bytes [1, 2]) rfl (by decide) rfl


/-- `firstParse` returns the parse of the first succeeding candidate. -/
theorem firstParse_first_success (ps₁ : List ParseFn) (p : ParseFn)
    (ps₂ : List ParseFn) (j : Json) (e : Evt)
    (h₁ : ∀ q ∈ ps₁, q j = none) (h₂ : p j = some e) :
    firstParse (ps₁ ++ p :: ps₂) j = some e := by
  induction ps₁ with
  | nil => simp [firstParse, h₂]
  | cons q qs ih =>
    have hq : q j = none := h₁ q (by simp)
    simp only [List.cons_append, firstParse, hq]
    exact ih (fun r hr => h₁ r (by simp [hr]))

/-- `firstParse` fails when every candidate fails. -/
theorem firstParse_none (ps : List ParseFn) (j : Json)
    (h : ∀ q ∈ ps, q j = none) : firstParse ps j = none := by
  induction ps with
  | nil => rfl
  | cons q qs ih =>
    have hq : q j = none := h q (by simp)
    simp only [firstParse, hq]
    exact ih (fun r hr => h r (by simp [hr]))

/-- On an object with a string `post_type`, `json_to_event` reduces to the
cascade over the candidates registered for its taxonomy key. -/
theorem json_to_event_obj (reg : String → List ParseFn)
    (fields : List (String × Json)) (s : String)
    (hpt : jGet fields "post_type" = some (Json.str s)) :
    json_to_event reg (Json.obj fields) =
      (match firstParse (reg (taxonomyKey s fields)) (Json.obj fields) with
       | some e => DecodeOut.mk (some e) none none
       | none =>
         match Event.parse_obj (Json.obj fields) with
         | some e => DecodeOut.mk (some e) none none
         | none => DecodeOut.mk none none (some (Json.obj fields))) := by
  show decodeObj reg fields = _
  unfold decodeObj
  rw [hpt]

/-- C2: on a JSON object with a (string) `post_type`, the decoder tries the
candidates registered for the derived taxonomy key in order — the first
successful parse is returned — and when every registered candidate fails the
object is still decoded by the universal fallback `Event.parse_obj`, so a
payload the fallback envelope accepts always yields an event. -/
theorem json_to_event_cascade (reg : String → List ParseFn)
    (fields : List (String × Json)) (s : String)
    (hpt : jGet fields "post_type" = some (Json.str s)) :
    ((json_to_event reg (Json.obj fields)).event =
      (firstParse (reg (taxonomyKey s fields)) (Json.obj fields)).orElse
        (fun _ => Event.parse_obj (Json.obj fields)))
  ∧ (∀ (ps₁ : List ParseFn) (p : ParseFn) (ps₂ : List ParseFn) (e : Evt),
      reg (taxonomyKey s fields) = ps₁ ++ p :: ps₂ →
      (∀ q ∈ ps₁, q (Json.obj fields) = none) →
      p (Json.obj fields) = some e →
      (json_to_event reg (Json.obj fields)).event = some e)
  ∧ (∀ e : Evt, (∀ q ∈ reg (taxonomyKey s fields), q (Json.obj fields) = none) →
      Event.parse_obj (Json.obj fields) = some e →
      (json_to_event reg (Json.obj fields)).event = some e) := by
  have key := json_to_event_obj reg fields s hpt
  refine ⟨?_, ?_, ?_⟩
  · rw [key]
    cases hfp : firstParse (reg (taxonomyKey s fields)) (Json.obj fields) with
    | some e => simp
    | none =>
      cases hev : Event.parse_obj (Json.obj fields) with
      | some e => simp
      | none => simp
  · intro ps₁ p ps₂ e hreg hfail hp
    have hfp : firstParse (reg (taxonomyKey s fields)) (Json.obj fields) = some e := by
      rw [hreg]; exact firstParse_first_success ps₁ p ps₂ _ e hfail hp
    rw [key, hfp]
  · intro e hall hev
    have hfp := firstParse_none (reg (taxonomyKey s fields)) (Json.obj fields) hall
    rw [key, hfp, hev]

/-- Witness for C2: with no candidate registered, a plain message payload is
decoded by the fallback envelope. -/
theorem json_to_event_cascade_witness :
    (json_to_event (fun _ => [])
        (Json.obj [("post_type", Json.str "message"), ("self_id", Json.num 1)])).event =
      (firstParse []
          (Json.obj [("post_type", Json.str "message"), ("self_id", Json.num 1)])).orElse
        (fun _ => Event.parse_obj
          (Json.obj [("post_type", Json.str "message"), ("self_id", Json.num 1)])) :=
  (json_to_event_cascade (fun _ => [])
    [("post_type", Json.str "message"), ("self_id", Json.num 1)] "message" rfl).1

/-- C3: a non-object JSON value produces nothing and forwards nothing; a JSON
object without a `post_type` field produces no event and is forwarded
unchanged to the result-correlation store, whatever its other fields. -/
theorem json_to_event_classify (reg : String → List ParseFn) (j : Json) :
    (j.isObj = false → json_to_event reg j = DecodeOut.mk none none none)
  ∧ (∀ fields, j = Json.obj fields → jGet fields "post_type" = none →
      json_to_event reg j = DecodeOut.mk none (some j) none) := by
  constructor
  · intro h
    cases j with
    | obj fields => simp [Json.isObj] at h
    | null => rfl
    | bool b => rfl
    | num n => rfl
    | str s => rfl
    | arr l => rfl
  · intro fields hj hpt
    subst hj
    show decodeObj reg fields = _
    unfold decodeObj
    rw [hpt]

/-- Witness for C3: a bare number yields nothing; an API-result object (an
`echo` correlation payload, no `post_type`) is forwarded unchanged. -/
theorem json_to_event_classify_witness :
    json_to_event (fun _ => []) (Json.num 3) = DecodeOut.mk none none none
  ∧ json_to_event (fun _ => []) (Json.obj [("echo", Json.str "e"), ("retcode", Json.num 0)]) =
      DecodeOut.mk none (some (Json.obj [("echo", Json.str "e"), ("retcode", Json.num 0)])) none :=
  ⟨(json_to_event_classify (fun _ => []) (Json.num 3)).1 rfl,
   (json_to_event_classify (fun _ => [])
      (Json.obj [("echo", Json.str "e"), ("retcode", Json.num 0)])).2
     [("echo", Json.str "e"), ("retcode", Json.num 0)] rfl rfl⟩

/-- Counterexample to C9 as stated: in
`{"post_type": "message", "message_type": ""}` the `message_type` field is
present and non-null, yet the key the code builds is `"message"` — the
claimed key (segment included whenever present and non-null) would be
`"message."`. -/
theorem taxonomyKey_spec_counterexample :
    taxonomyKey "message" [("post_type", Json.str "message"), ("message_type", Json.str "")]
        = "message"
  ∧ specTaxonomyKey "message" [("post_type", Json.str "message"), ("message_type", Json.str "")]
        = "message."
  ∧ taxonomyKey "message" [("post_type", Json.str "message"), ("message_type", Json.str "")]
      ≠ specTaxonomyKey "message" [("post_type", Json.str "message"), ("message_type", Json.str "")] := by
  refine ⟨by decide, by decide, by decide⟩

/-- C9 (amended): the taxonomy key is `post_type`, then `"." + str(value)` of
the `{post_type}_type` field, then `"." + str(value)` of the `sub_type`
field, where each optional segment is included exactly when its field is
present with a truthy value (absent, null, false, zero, empty-string and
empty-container values are all omitted). -/
theorem taxonomyKey_truthy_segments (pt : String) (fields : List (String × Json)) :
    (∀ dv sv, jGet fields (pt ++ "_type") = some dv → truthy dv = true →
      jGet fields "sub_type" = some sv → truthy sv = true →
      taxonomyKey pt fields = pt ++ "." ++ pyStr dv ++ "." ++ pyStr sv)
  ∧ (∀ dv, jGet fields (pt ++ "_type") = some dv → truthy dv = true →
      optFalsy (jGet fields "sub_type") = true →
      taxonomyKey pt fields = pt ++ "." ++ pyStr dv)
  ∧ (∀ sv, optFalsy (jGet fields (pt ++ "_type")) = true →
      jGet fields "sub_type" = some sv → truthy sv = true →
      taxonomyKey pt fields = pt ++ "." ++ pyStr sv)
  ∧ (optFalsy (jGet fields (pt ++ "_type")) = true →
      optFalsy (jGet fields "sub_type") = true →
      taxonomyKey pt fields = pt) := by
  refine ⟨?_, ?_, ?_, ?_⟩
  · intro dv sv hd htd hs hts
    simp [taxonomyKey, hd, hs, htd, hts, String.append_assoc]
  · intro dv hd htd hs
    cases hsv : jGet fields "sub_type" with
    | none => simp [taxonomyKey, hd, hsv, htd, String.append_assoc]
    | some v =>
      rw [hsv] at hs
      have hv : truthy v = false := by simpa [optFalsy] using hs
      simp [taxonomyKey, hd, hsv, htd, hv, String.append_assoc]
  · intro sv hd hs hts
    cases hdv : jGet fields (pt ++ "_type") with
    | none => simp [taxonomyKey, hdv, hs, hts, String.append_assoc]
    | some v =>
      rw [hdv] at hd
      have hv : truthy v = false := by simpa [optFalsy] using hd
      simp [taxonomyKey, hdv, hs, hts, hv, String.append_assoc]
  · intro hd hs
    cases hdv : jGet fields (pt ++ "_type") with
    | none =>
      cases hsv : jGet fields "sub_type" with
      | none => simp [taxonomyKey, hdv, hsv]
      | some v =>
        rw [hsv] at hs
        have hv : truthy v = false := by simpa [optFalsy] using hs
        simp [taxonomyKey, hdv, hsv, hv]
    | some w =>
      rw [hdv] at hd
      have hw : truthy w = false := by simpa [optFalsy] using hd
      cases hsv : jGet fields "sub_type" with
      | none => simp [taxonomyKey, hdv, hsv, hw]
      | some v =>
        rw [hsv] at hs
        have hv : truthy v = false := by simpa [optFalsy] using hs
        simp [taxonomyKey, hdv, hsv, hv, hw]

/-- Witness for the amended C9 at the spec's own example: a private friend
message yields the key `"message.private.friend"`. -/
theorem taxonomyKey_truthy_segments_witness :
    taxonomyKey "message"
        [("post_type", Json.str "message"), ("message_type", Json.str "private"),
         ("sub_type", Json.str "friend")]
      = "message" ++ "." ++ pyStr (Json.str "private") ++ "." ++ pyStr (Json.str "friend") :=
  (taxonomyKey_truthy_segments "message"
      [("post_type", Json.str "message"), ("message_type", Json.str "private"),
       ("sub_type", Json.str "friend")]).1
    (Json.str "private") (Json.str "friend") rfl rfl rfl rfl

/-- C8: `_handle_http` runs the identity, signature and token checks in that
order, short-circuiting on the first failure, and maps each rejection to its
status: 400 for a missing identity header; 401 for a missing signature header
under a configured secret; 400 for a missing body when a signature is
required; 403 for a signature mismatch; 403 for a missing or invalid token
under a configured access token. -/
theorem handle_http_auth_order (reg : String → List ParseFn)
    (loads : ReqContent → Option Json) (cfg : Config) (bots : List String)
    (req : Request) :
    (optStrTruthy (hGet req.headers "x-self-id") = false →
      _handle_http reg loads cfg bots req =
        HttpOut.mk (some (Response.mk 400 (some "Missing X-Self-ID Header")))
          none none none none)
  ∧ (∀ r, optStrTruthy (hGet req.headers "x-self-id") = true →
      _check_signature cfg req = some r →
      _handle_http reg loads cfg bots req = HttpOut.mk (some r) none none none none)
  ∧ (∀ r, optStrTruthy (hGet req.headers "x-self-id") = true →
      _check_signature cfg req = none →
      _check_access_token cfg req = some r →
      _handle_http reg loads cfg bots req = HttpOut.mk (some r) none none none none)
  ∧ (∀ S, cfg.secret = some S → S ≠ "" →
      (optStrTruthy (hGet req.headers "x-signature") = false →
        _check_signature cfg req = some (Response.mk 401 (some "Missing Signature")))
      ∧ (∀ sh, hGet req.headers "x-signature" = some sh → sh ≠ "" →
          req.content = none →
          _check_signature cfg req = some (Response.mk 400 (some "Missing Content")))
      ∧ (∀ sh c, hGet req.headers "x-signature" = some sh → sh ≠ "" →
          req.content = some c →
          sh ≠ "sha1=" ++ hexdigest (hmacSha1 (strBytes S) (contentBytes c)) →
          _check_signature cfg req = some (Response.mk 403 (some "Signature is invalid"))))
  ∧ (∀ T, cfg.access_token = some T → T ≠ "" →
      get_auth_bearer (hGet req.headers "authorization") ≠ some T →
      _check_access_token cfg req = some (Response.mk 403 (some
        (if optStrTruthy (get_auth_bearer (hGet req.headers "authorization"))
         then "Authorization Header is invalid"
         else "Missing Authorization Header")))) := by
  refine ⟨?_, ?_, ?_, ?_, ?_⟩
  · intro h
    cases hg : hGet req.headers "x-self-id" with
    | none => simp only [_handle_http, hg]
    | some s =>
      rw [hg] at h
      have hs : s = "" := by simpa [optStrTruthy] using h
      subst hs
      simp [_handle_http, hg]
  · intro r hid hsig
    cases hg : hGet req.headers "x-self-id" with
    | none => rw [hg] at hid; simp [optStrTruthy] at hid
    | some s =>
      rw [hg] at hid
      have hs : ¬s = "" := by simpa [optStrTruthy] using hid
      simp only [_handle_http, hg, if_neg hs, hsig]
  · intro r hid hsig htok
    cases hg : hGet req.headers "x-self-id" with
    | none => rw [hg] at hid; simp [optStrTruthy] at hid
    | some s =>
      rw [hg] at hid
      have hs : ¬s = "" := by simpa [optStrTruthy] using hid
      simp only [_handle_http, hg, if_neg hs, hsig, htok]
  · intro S hS hne
    refine ⟨?_, ?_, ?_⟩
    · intro h
      cases hx : hGet req.headers "x-signature" with
      | none => simp only [_check_signature, hS, if_neg hne, hx]
      | some sh =>
        rw [hx] at h
        have hsh : sh = "" := by simpa [optStrTruthy] using h
        subst hsh
        simp [_check_signature, hS, if_neg hne, hx]
    · intro sh hx hsh hc
      simp only [_check_signature, hS, if_neg hne, hx, if_neg hsh, hc]
    · intro sh c hx hsh hc hmis
      simp only [_check_signature, hS, if_neg hne, hx, if_neg hsh, hc, if_pos hmis]
  · intro T hT hne hmis
    simp only [_check_access_token, hT, if_neg hne, if_neg hmis]

/-- Witness for C8: a request without `X-Self-ID` is answered 400, and under a
configured secret a request without `X-Signature` fails the signature check
with 401. -/
theorem handle_http_auth_order_witness :
    _handle_http (fun _ => []) (fun _ => none) (Config.mk (some "s") none []) []
        (Request.mk [] none) =
      HttpOut.mk (some (Response.mk 400 (some "Missing X-Self-ID Header")))
        none none none none
  ∧ _check_signature (Config.mk (some "s") none [])
        (Request.mk [("x-self-id", "9")] none) =
      some (Response.mk 401 (some "Missing Signature")) :=
  ⟨(handle_http_auth_order (fun _ => []) (fun _ => none)
      (Config.mk (some "s") none []) [] (Request.mk [] none)).1 rfl,
   ((handle_http_auth_order (fun _ => []) (fun _ => none)
      (Config.mk (some "s") none []) [] (Request.mk [("x-self-id", "9")] none)).2.2.2.1
     "s" rfl (by decide)).1 rfl⟩

/-- C10: a request that passes every configured auth check but carries no body
is still answered 204, with no JSON parsed, no event dispatched and no
session created (the outcome does not depend on `loads` at all). -/
theorem handle_http_no_body_204 (reg : String → List ParseFn)
    (loads : ReqContent → Option Json) (cfg : Config) (bots : List String)
    (req : Request)
    (hid : optStrTruthy (hGet req.headers "x-self-id") = true)
    (hsig : _check_signature cfg req = none)
    (htok : _check_access_token cfg req = none)
    (hbody : req.content = none) :
    _handle_http reg loads cfg bots req =
      HttpOut.mk (some (Response.mk 204 none)) none none none none := by
  cases hg : hGet req.headers "x-self-id" with
  | none => rw [hg] at hid; simp [optStrTruthy] at hid
  | some s =>
    rw [hg] at hid
    have hs : ¬s = "" := by simpa [optStrTruthy] using hid
    simp only [_handle_http, hg, if_neg hs, hsig, htok, hbody]

/-- Witness for C10: no secret and no token configured, identity present, no
body — the response is 204 and nothing else happens. -/
theorem handle_http_no_body_204_witness :
    _handle_http (fun _ => []) (fun _ => none) (Config.mk none none []) []
        (Request.mk [("x-self-id", "123")] none) =
      HttpOut.mk (some (Response.mk 204 none)) none none none none :=
  handle_http_no_body_204 (fun _ => []) (fun _ => none) (Config.mk none none []) []
    (Request.mk [("x-self-id", "123")] none) rfl rfl rfl rfl

/-- The side-effect actions of a decode dispatch no event. -/
theorem dispatches_decodeActs (d : DecodeOut) : dispatches (decodeActs d) = [] := by
  rcases d with ⟨ev, fw, el⟩
  cases fw <;> cases el <;> rfl

/-- The side-effect actions of a decode register no session. -/
theorem connects_decodeActs (d : DecodeOut) : connects (decodeActs d) = [] := by
  rcases d with ⟨ev, fw, el⟩
  cases fw <;> cases el <;> rfl

/-- The side-effect actions of a decode contain no close attempt. -/
theorem countP_decodeActs_closeAttempt (d : DecodeOut) :
    (decodeActs d).countP Act.isCloseAttempt = 0 := by
  rcases d with ⟨ev, fw, el⟩
  cases fw <;> cases el <;> rfl

/-- The side-effect actions of a decode contain no disconnect. -/
theorem countP_decodeActs_disconnect (d : DecodeOut) :
    (decodeActs d).countP Act.isBotDisconnect = 0 := by
  rcases d with ⟨ev, fw, el⟩
  cases fw <;> cases el <;> rfl

/-- `dispatches` distributes over trace concatenation. -/
theorem dispatches_append (a b : List Act) :
    dispatches (a ++ b) = dispatches a ++ dispatches b :=
  List.filterMap_append a b _

/-- `connects` distributes over trace concatenation. -/
theorem connects_append (a b : List Act) :
    connects (a ++ b) = connects a ++ connects b :=
  List.filterMap_append a b _

/-- A dispatch action contributes its event to `dispatches`. -/
theorem dispatches_dispatch_cons (e : Evt) (acts : List Act) :
    dispatches (Act.dispatch e :: acts) = e :: dispatches acts := rfl

/-- A dispatch action contributes nothing to `connects`. -/
theorem connects_dispatch_cons (e : Evt) (acts : List Act) :
    connects (Act.dispatch e :: acts) = connects acts := rfl

/-- A registration action contributes nothing to `dispatches`. -/
theorem dispatches_connect_cons (i : String) (acts : List Act) :
    dispatches (Act.botConnect i :: acts) = dispatches acts := rfl

/-- A registration action contributes its identity to `connects`. -/
theorem connects_connect_cons (i : String) (acts : List Act) :
    connects (Act.botConnect i :: acts) = i :: connects acts := rfl

/-- The receive loop of `_handle_ws` never closes the socket and never
unregisters a session itself: teardown lives only in the `finally`. -/
theorem wsLoopActs_no_teardown (reg : String → List ParseFn) (frames : List Frame) :
    (wsLoopActs reg frames).countP Act.isCloseAttempt = 0 ∧
    (wsLoopActs reg frames).countP Act.isBotDisconnect = 0 := by
  induction frames with
  | nil => exact ⟨rfl, rfl⟩
  | cons f fs ih =>
    cases f with
    | badJson => exact ⟨rfl, rfl⟩
    | recvRaise => exact ⟨rfl, rfl⟩
    | text j =>
      refine ⟨?_, ?_⟩ <;>
        simp only [wsLoopActs, List.countP_append, countP_decodeActs_closeAttempt,
          countP_decodeActs_disconnect, ih.1, ih.2] <;>
        cases hev : (json_to_event reg j).event <;> rfl

/-- C5: while a session for identity `A` is registered, a second passive
WebSocket handshake presenting `A` is rejected by a 1008 close with no accept,
no registration and no teardown, the session map untouched; and every
`_handle_ws` handshake preserves distinctness of the session map, so at most
one active session per identity exists. -/
theorem handle_ws_duplicate_identity (reg : String → List ParseFn) (cfg : Config)
    (closeRaises : Bool) :
    (∀ (bots : List String) (hdrs : List (String × String)) (frames : List Frame)
        (A : String), hGet hdrs "x-self-id" = some A → A ≠ "" →
        bots.contains A = true →
        _handle_ws reg cfg bots hdrs frames closeRaises =
          WsOut.mk [Act.warn ("There is already a bot " ++ A ++ ", ignored"),
                    Act.closeWith 1008 "Duplicate X-Self-ID"] false none bots)
  ∧ (∀ (bots : List String) (hdrs : List (String × String)) (frames : List Frame),
      bots.Nodup → (_handle_ws reg cfg bots hdrs frames closeRaises).bots.Nodup) := by
  constructor
  · intro bots hdrs frames A hA hne hmem
    simp only [_handle_ws, hA, if_neg hne, hmem, if_pos]
  · intro bots hdrs frames hnd
    cases hA : hGet hdrs "x-self-id" with
    | none => simpa [_handle_ws, hA] using hnd
    | some sid =>
      by_cases hs : sid = ""
      · subst hs; simpa [_handle_ws, hA] using hnd
      · by_cases hmem : sid ∈ bots
        · simpa [_handle_ws, hA, hs, hmem] using hnd
        · cases htok : _check_access_token cfg (Request.mk hdrs none) with
          | some r => simpa [_handle_ws, hA, hs, hmem, htok] using hnd
          | none =>
            have hbots : (_handle_ws reg cfg bots hdrs frames closeRaises).bots =
                sid :: bots := by
              simp [_handle_ws, hA, hs, hmem, htok]
            rw [hbots]
            exact List.nodup_cons.mpr ⟨hmem, hnd⟩

/-- Witness for C5: with a session for `"9"` registered, a handshake for `"9"`
yields only a warning and a 1008 close, and leaves the map `["9"]` as it was. -/
theorem handle_ws_duplicate_identity_witness :
    _handle_ws (fun _ => []) (Config.mk none none []) ["9"] [("x-self-id", "9")] [] false =
      WsOut.mk [Act.warn ("There is already a bot " ++ "9" ++ ", ignored"),
                Act.closeWith 1008 "Duplicate X-Self-ID"] false none ["9"] :=
  (handle_ws_duplicate_identity (fun _ => []) (Config.mk none none []) false).1
    ["9"] [("x-self-id", "9")] [] "9" rfl (by decide) rfl

/-- C6: on every accepted passive WebSocket connection the teardown — the
best-effort close (whether or not the close itself raises) followed by the
session unregistration — runs exactly once, at the end of the trace, on every
exit of the receive loop. -/
theorem handle_ws_teardown_once (reg : String → List ParseFn) (cfg : Config)
    (bots : List String) (hdrs : List (String × String)) (frames : List Frame)
    (closeRaises : Bool) (sid : String)
    (h : (_handle_ws reg cfg bots hdrs frames closeRaises).sessionId = some sid) :
    (_handle_ws reg cfg bots hdrs frames closeRaises).acts.countP Act.isCloseAttempt = 1
  ∧ (_handle_ws reg cfg bots hdrs frames closeRaises).acts.countP Act.isBotDisconnect = 1
  ∧ ∃ pre, (_handle_ws reg cfg bots hdrs frames closeRaises).acts =
      pre ++ [Act.closeAttempt closeRaises, Act.botDisconnect sid] := by
  cases hA : hGet hdrs "x-self-id" with
  | none => simp [_handle_ws, hA] at h
  | some s =>
    by_cases hs : s = ""
    · subst hs; simp [_handle_ws, hA] at h
    · by_cases hmem : s ∈ bots
      · simp [_handle_ws, hA, hs, hmem] at h
      · cases htok : _check_access_token cfg (Request.mk hdrs none) with
        | some r => simp [_handle_ws, hA, hs, hmem, htok] at h
        | none =>
          have hsid : s = sid := by
            simpa [_handle_ws, hA, hs, hmem, htok] using h
          subst hsid
          refine ⟨?_, ?_,
            ⟨[Act.accept, Act.botConnect s] ++ wsLoopActs reg frames, ?_⟩⟩
          · simp [_handle_ws, hA, hs, hmem, htok, List.countP_append,
              List.countP_cons, (wsLoopActs_no_teardown reg frames).1,
              Act.isCloseAttempt]
          · simp [_handle_ws, hA, hs, hmem, htok, List.countP_append,
              List.countP_cons, (wsLoopActs_no_teardown reg frames).2,
              Act.isBotDisconnect]
          · simp [_handle_ws, hA, hs, hmem, htok]

/-- Witness for C6: an accepted connection with no frames, whose teardown
close raises (and is swallowed), still ends with exactly one close attempt and
one unregistration. -/
theorem handle_ws_teardown_once_witness :
    (_handle_ws (fun _ => []) (Config.mk none none []) [] [("x-self-id", "7")] []
        true).acts.countP Act.isCloseAttempt = 1
  ∧ (_handle_ws (fun _ => []) (Config.mk none none []) [] [("x-self-id", "7")] []
        true).acts.countP Act.isBotDisconnect = 1
  ∧ ∃ pre, (_handle_ws (fun _ => []) (Config.mk none none []) [] [("x-self-id", "7")] []
        true).acts = pre ++ [Act.closeAttempt true, Act.botDisconnect "7"] :=
  handle_ws_teardown_once (fun _ => []) (Config.mk none none []) []
    [("x-self-id", "7")] [] true "7" rfl

/-- Counterexample to C7 as stated: on an accepted passive connection, a
malformed-JSON frame does not leave the connection open — the good event frame
following it is never dispatched and the socket is closed — while the same
good frame alone is dispatched. -/
theorem ws_malformed_frame_closes :
    ((_handle_ws (fun _ => []) (Config.mk none none []) [] [("x-self-id", "7")]
        [Frame.badJson,
         Frame.text (Json.obj [("post_type", Json.str "message"), ("self_id", Json.num 7)])]
        false).acts.countP Act.isDispatch = 0
  ∧ (_handle_ws (fun _ => []) (Config.mk none none []) [] [("x-self-id", "7")]
        [Frame.badJson,
         Frame.text (Json.obj [("post_type", Json.str "message"), ("self_id", Json.num 7)])]
        false).acts.countP Act.isCloseAttempt = 1)
  ∧ (_handle_ws (fun _ => []) (Config.mk none none []) [] [("x-self-id", "7")]
        [Frame.text (Json.obj [("post_type", Json.str "message"), ("self_id", Json.num 7)])]
        false).acts.countP Act.isDispatch = 1 := by
  exact ⟨⟨rfl, rfl⟩, rfl⟩

/-- C7 (amended): a payload that parses as JSON but matches no candidate and
not even the fallback envelope is logged with the offending raw payload and
dropped, the receive loop carrying on with the next frame; a malformed-JSON
frame instead ends the receive loop — the passive handler falls to its
teardown, the forward loop closes the socket best-effort and breaks to
reconnect. -/
theorem decode_failure_vs_malformed (reg : String → List ParseFn) (closeRaises : Bool) :
    (∀ j fs, json_to_event reg j = DecodeOut.mk none none (some j) →
      wsLoopActs reg (Frame.text j :: fs) = Act.decodeError j :: wsLoopActs reg fs)
  ∧ (∀ fs, wsLoopActs reg (Frame.badJson :: fs) = [Act.logWsError])
  ∧ (∀ (b : Option String) fs, fwdLoop reg closeRaises b (Frame.badJson :: fs) =
      ([Act.closeAttempt closeRaises, Act.logWsError], b)) := by
  refine ⟨?_, fun fs => rfl, fun b fs => rfl⟩
  intro j fs hd
  simp [wsLoopActs, hd, decodeActs]

/-- Witness for the amended C7: a payload whose envelope lacks `self_id` fails
even the fallback, is logged, and the loop moves on. -/
theorem decode_failure_vs_malformed_witness :
    wsLoopActs (fun _ => []) [Frame.text (Json.obj [("post_type", Json.str "x")])] =
      Act.decodeError (Json.obj [("post_type", Json.str "x")]) :: wsLoopActs (fun _ => []) [] :=
  (decode_failure_vs_malformed (fun _ => []) false).1
    (Json.obj [("post_type", Json.str "x")]) [] rfl

/-- With a bot bound, the forward receive loop dispatches every decoded event
of an exception-free frame list and registers nothing further. -/
theorem fwdLoop_identified (reg : String → List ParseFn) (cr : Bool) (b : String)
    (frames : List Frame) (h : ∀ f ∈ frames, f.isText = true) :
    dispatches (fwdLoop reg cr (some b) frames).1 = frames.filterMap (decodedEvt reg)
  ∧ connects (fwdLoop reg cr (some b) frames).1 = []
  ∧ (fwdLoop reg cr (some b) frames).2 = some b := by
  induction frames with
  | nil => exact ⟨rfl, rfl, rfl⟩
  | cons f fs ih =>
    cases f with
    | badJson =>
      exact absurd (h Frame.badJson (List.mem_cons_self _ _)) (by simp [Frame.isText])
    | recvRaise =>
      exact absurd (h Frame.recvRaise (List.mem_cons_self _ _)) (by simp [Frame.isText])
    | text j =>
      have ih' := ih (fun g hg => h g (List.mem_cons_of_mem _ hg))
      cases hev : (json_to_event reg j).event with
      | none =>
        simp [fwdLoop, hev, dispatches_append, dispatches_decodeActs,
          connects_append, connects_decodeActs, List.filterMap_cons, decodedEvt,
          ih'.1, ih'.2.1, ih'.2.2]
      | some e =>
        simp [fwdLoop, hev, dispatches_append, dispatches_decodeActs,
          connects_append, connects_decodeActs, dispatches_dispatch_cons,
          connects_dispatch_cons, List.filterMap_cons, decodedEvt,
          ih'.1, ih'.2.1, ih'.2.2]

/-- With no bot bound, frames decoding to nothing or to non-`connect` events
dispatch nothing and register nothing, and the loop stays unidentified. -/
theorem fwdLoop_gate_none (reg : String → List ParseFn) (cr : Bool)
    (frames : List Frame)
    (h : ∀ f ∈ frames, connOpt (decodedEvt reg f) = false) :
    dispatches (fwdLoop reg cr none frames).1 = []
  ∧ connects (fwdLoop reg cr none frames).1 = []
  ∧ (fwdLoop reg cr none frames).2 = none := by
  induction frames with
  | nil => exact ⟨rfl, rfl, rfl⟩
  | cons f fs ih =>
    cases f with
    | badJson => exact ⟨rfl, rfl, rfl⟩
    | recvRaise => exact ⟨rfl, rfl, rfl⟩
    | text j =>
      have hf := h _ (List.mem_cons_self _ _)
      have ih' := ih (fun g hg => h g (List.mem_cons_of_mem _ hg))
      cases hev : (json_to_event reg j).event with
      | none =>
        simp [fwdLoop, hev, dispatches_append, dispatches_decodeActs,
          connects_append, connects_decodeActs, ih'.1, ih'.2.1, ih'.2.2]
      | some e =>
        have hc : e.isConnect = false := by
          simpa [connOpt, decodedEvt, hev] using hf
        simp [fwdLoop, hev, hc, dispatches_append, dispatches_decodeActs,
          connects_append, connects_decodeActs, ih'.1, ih'.2.1, ih'.2.2]

/-- C4: on a forward connection, (a) as long as no received frame decodes to a
lifecycle `connect` event, nothing is dispatched and no session is registered;
and (b) once — after exception-free, non-`connect` traffic — a frame decodes
to a lifecycle `connect` carrying `self_id = n`, exactly the session
`str(n)` is registered and every subsequently decoded event (starting with
the `connect` event itself) is dispatched. -/
theorem forward_identification_gate (reg : String → List ParseFn) (cr : Bool) :
    (∀ frames : List Frame, (∀ f ∈ frames, connOpt (decodedEvt reg f) = false) →
      dispatches (fwdLoop reg cr none frames).1 = []
      ∧ connects (fwdLoop reg cr none frames).1 = []
      ∧ (fwdLoop reg cr none frames).2 = none)
  ∧ (∀ (pre rest : List Frame) (j : Json) (n : Int),
      (∀ f ∈ pre, f.isText = true ∧ connOpt (decodedEvt reg f) = false) →
      (json_to_event reg j).event = some (Evt.lifecycle n "connect") →
      (∀ f ∈ rest, f.isText = true) →
      connects (fwdLoop reg cr none (pre ++ Frame.text j :: rest)).1 = [toString n]
      ∧ dispatches (fwdLoop reg cr none (pre ++ Frame.text j :: rest)).1 =
          Evt.lifecycle n "connect" :: rest.filterMap (decodedEvt reg)
      ∧ (fwdLoop reg cr none (pre ++ Frame.text j :: rest)).2 = some (toString n)) := by
  refine ⟨fwdLoop_gate_none reg cr, ?_⟩
  intro pre rest j n
  induction pre with
  | nil =>
    intro _ hconn hrest
    have hid := fwdLoop_identified reg cr (toString n) rest hrest
    have hc : (Evt.lifecycle n "connect").isConnect = true := by simp [Evt.isConnect]
    simp [fwdLoop, hconn, hc, Evt.selfId, dispatches_append, dispatches_decodeActs,
      connects_append, connects_decodeActs, dispatches_dispatch_cons,
      connects_dispatch_cons, dispatches_connect_cons, connects_connect_cons,
      hid.1, hid.2.1, hid.2.2]
  | cons f fs ih =>
    intro hpre hconn hrest
    have hf := hpre _ (List.mem_cons_self _ _)
    have ih' := ih (fun g hg => hpre g (List.mem_cons_of_mem _ hg)) hconn hrest
    cases f with
    | badJson => exact absurd hf.1 (by simp [Frame.isText])
    | recvRaise => exact absurd hf.1 (by simp [Frame.isText])
    | text j' =>
      cases hev : (json_to_event reg j').event with
      | none =>
        simp only [List.cons_append, fwdLoop, hev, dispatches_append,
          dispatches_decodeActs, connects_append, connects_decodeActs]
        simpa using ih'
      | some e =>
        have hc : e.isConnect = false := by
          simpa [connOpt, decodedEvt, hev] using hf.2
        simp only [List.cons_append, fwdLoop, hev, hc, Bool.false_eq_true, if_false,
          dispatches_append, dispatches_decodeActs, connects_append, connects_decodeActs]
        simpa using ih'

/-- Witness for C4: an ordinary message first (ignored), then the lifecycle
`connect` with `self_id = 42`, then another message — exactly one session
`"42"` is registered and the `connect` and the later message are dispatched. -/
theorem forward_identification_gate_witness :
    connects (fwdLoop sampleReg false none
        ([Frame.text sampleMessage] ++ Frame.text sampleConnect ::
          [Frame.text sampleMessage])).1 = [toString (42 : Int)]
  ∧ dispatches (fwdLoop sampleReg false none
        ([Frame.text sampleMessage] ++ Frame.text sampleConnect ::
          [Frame.text sampleMessage])).1 =
      Evt.lifecycle 42 "connect" :: [Frame.text sampleMessage].filterMap (decodedEvt sampleReg)
  ∧ (fwdLoop sampleReg false none
        ([Frame.text sampleMessage] ++ Frame.text sampleConnect ::
          [Frame.text sampleMessage])).2 = some (toString (42 : Int)) :=
  (forward_identification_gate sampleReg false).2
    [Frame.text sampleMessage] [Frame.text sampleMessage] sampleConnect 42
    (by intro f hf; simp at hf; subst hf; exact ⟨rfl, rfl⟩)
    rfl
    (by intro f hf; simp at hf; subst hf; rfl)

end OneBotV11
